import Mathlib

/-
  Verification of the ai-gateway provider abstraction layer.

  Shallow embedding of src/app/routers/ai.py, src/app/config.py and the
  adapter modules src/app/services/{claude,chatgpt,gemini,perplexity}.py.
  Python dictionaries with fixed keys become structures; `dict.get` with a
  default becomes `Option.getD`; raised exceptions become `Except.error`;
  Python truthiness of a string is the test against ""; Python truthiness
  of a list is the test against []. Temperature is a float that every
  adapter passes through untouched, so it is carried as an arbitrary type
  parameter.
-/

namespace AIGateway

/-- Python string slicing s[:n] : the first at most n characters. -/
def pyTake (s : String) (n : Nat) : String := String.mk (s.data.take n)

/-- One chat message dict (`Dict[str, str]`): `msg.get("role")` yields
`none` when the key is absent, `msg.get("content", "")` defaults to "".
A `none` content also stands for a present-but-null value. -/
structure Msg where
  role : Option String
  content : Option String
deriving DecidableEq, Repr

/-- app/config.py ProviderConfig: one provider descriptor. -/
structure ProviderConfig where
  name : String
  api_key : String
  model : String
  base_url : String
  enabled : Bool
deriving DecidableEq, Repr

/-- The configuration store as seen by `get_provider`:
`config.providers.get(provider_id)`. -/
def Store := String → Option ProviderConfig

/-- fastapi.HTTPException as raised by the router. -/
structure HTTPException where
  status_code : Nat
  detail : String
deriving DecidableEq, Repr

/-- The adapter classes named in the router service_map. -/
inductive ServiceClass where
  | claude
  | chatgpt
  | gemini
  | moonshot
  | perplexity
deriving DecidableEq, Repr

/-- A constructed service instance: `service_class(api_key=..., model=...,
base_url=...)` from ai.py get_ai_service. -/
structure Service where
  cls : ServiceClass
  api_key : String
  model : String
  base_url : String
deriving DecidableEq, Repr

/-- ai.py service_map: fixed lookup table from provider id to adapter class. -/
def service_map (provider_id : String) : Option ServiceClass :=
  if provider_id = "claude" then some .claude
  else if provider_id = "openai" then some .chatgpt
  else if provider_id = "gemini-pro" then some .gemini
  else if provider_id = "gemini-flash" then some .gemini
  else if provider_id = "moonshot" then some .moonshot
  else if provider_id = "perplexity" then some .perplexity
  else none

/-- ai.py get_ai_service: look the provider up in the configuration store,
then check enabled, then api_key (Python falsy = empty string), then the
service_map, and finally construct the service from the descriptor fields. -/
def get_ai_service (store : Store) (provider_id : String) :
    Except HTTPException Service :=
  match store provider_id with
  | none => .error ⟨404, "Provider not found: " ++ provider_id⟩
  | some provider =>
    if provider.enabled = false then
      .error ⟨400, "Provider is disabled: " ++ provider_id⟩
    else if provider.api_key = "" then
      .error ⟨400, "API key not configured for: " ++ provider_id⟩
    else
      match service_map provider_id with
      | none => .error ⟨400, "Unknown provider: " ++ provider_id⟩
      | some cls => .ok ⟨cls, provider.api_key, provider.model, provider.base_url⟩

/-- A store with the two default gemini descriptors and a claude one,
used to instantiate universally quantified theorems at concrete inputs. -/
def demoStore : Store := fun provider_id =>
  if provider_id = "claude" then
    some ⟨"Claude (Anthropic)", "sk-c", "claude-sonnet-4-20250514",
          "https://api.anthropic.com/v1", true⟩
  else if provider_id = "openai" then
    some ⟨"GPT (OpenAI)", "sk-o", "gpt-4o", "https://api.openai.com/v1", true⟩
  else if provider_id = "gemini-pro" then
    some ⟨"Gemini (Pro)", "sk-g", "gemini-1.5-pro",
          "https://generativelanguage.googleapis.com/v1beta", true⟩
  else if provider_id = "disabled-one" then
    some ⟨"Disabled", "sk-d", "m", "u", false⟩
  else if provider_id = "keyless-one" then
    some ⟨"Keyless", "", "m", "u", true⟩
  else none

/-- C2: resolution checks existence, enablement, credential, adapter
availability in that fixed order, each failure with its own kind, and on
success builds the service from the descriptor api_key, model, base_url. -/
theorem C2_resolution_order (store : Store) (provider_id : String) :
    (store provider_id = none →
      get_ai_service store provider_id =
        .error ⟨404, "Provider not found: " ++ provider_id⟩) ∧
    (∀ p, store provider_id = some p → p.enabled = false →
      get_ai_service store provider_id =
        .error ⟨400, "Provider is disabled: " ++ provider_id⟩) ∧
    (∀ p, store provider_id = some p → p.enabled = true → p.api_key = "" →
      get_ai_service store provider_id =
        .error ⟨400, "API key not configured for: " ++ provider_id⟩) ∧
    (∀ p, store provider_id = some p → p.enabled = true → p.api_key ≠ "" →
      service_map provider_id = none →
      get_ai_service store provider_id =
        .error ⟨400, "Unknown provider: " ++ provider_id⟩) ∧
    (∀ p cls, store provider_id = some p → p.enabled = true → p.api_key ≠ "" →
      service_map provider_id = some cls →
      get_ai_service store provider_id =
        .ok ⟨cls, p.api_key, p.model, p.base_url⟩) := by
  refine ⟨?_, ?_, ?_, ?_, ?_⟩
  · intro h; simp [get_ai_service, h]
  · intro p hp he; simp [get_ai_service, hp, he]
  · intro p hp he hk; simp [get_ai_service, hp, he, hk]
  · intro p hp he hk hm; simp [get_ai_service, hp, he, hk, hm]
  · intro p cls hp he hk hm; simp [get_ai_service, hp, he, hk, hm]

/-- C2 witness: the resolution theorem evaluated at the demo store for the
success and not-found inputs. -/
theorem C2_resolution_order_witness :
    get_ai_service demoStore "gemini-pro" =
      .ok ⟨.gemini, "sk-g", "gemini-1.5-pro",
           "https://generativelanguage.googleapis.com/v1beta"⟩ ∧
    get_ai_service demoStore "nope" =
      .error ⟨404, "Provider not found: nope"⟩ := by
  constructor
  · exact (C2_resolution_order demoStore "gemini-pro").2.2.2.2
      ⟨"Gemini (Pro)", "sk-g", "gemini-1.5-pro",
       "https://generativelanguage.googleapis.com/v1beta", true⟩ .gemini
      (by decide) (by decide) (by decide) (by decide)
  · exact (C2_resolution_order demoStore "nope").1 (by decide)

/-- Normalized usage dict of a ChatResult. -/
structure ChatUsage where
  input_tokens : Nat
  output_tokens : Nat
deriving DecidableEq, Repr

/-- The normalized result dict each adapter chat returns ("content",
"model", "usage", "provider", plus "citations" for Perplexity and
"finish_reason" for Gemini; absent keys are `none`). `content` is an
Option because the upstream SDK may hand back a null content value. -/
structure ChatResult where
  content : Option String
  model : String
  usage : ChatUsage
  provider : String
  citations : Option (List String) := none
  finish_reason : Option String := none
deriving DecidableEq, Repr

/-
  Claude adapter, src/app/services/claude.py.
-/

/-- The Claude upstream payload built at claude.py lines 25-33.
`α` is the float type of temperature, passed through untouched. -/
structure ClaudePayload (α : Type) where
  model : String
  max_tokens : Nat
  temperature : α
  messages : List Msg
  system : Option String
deriving DecidableEq, Repr

/-- claude.py lines 25-33: the payload has model, max_tokens, temperature
and the messages unchanged; `if system_prompt:` adds the top-level
"system" key only for a truthy (present and non-empty) system prompt. -/
def claude_build_payload {α : Type} (model : String) (messages : List Msg)
    (system_prompt : Option String) (max_tokens : Nat) (temperature : α) :
    ClaudePayload α :=
  { model := model
    max_tokens := max_tokens
    temperature := temperature
    messages := messages
    system :=
      match system_prompt with
      | some s => if s = "" then none else some s
      | none => none }

/-- Parsed fields of the 200-status Claude response body that claude.py
reads: data["content"][0]["text"] (`none` when "content" is empty or the
text key is missing, where Python raises), data["model"], data["usage"]. -/
structure ClaudeData where
  content_first_text : Option String
  model : String
  input_tokens : Nat
  output_tokens : Nat
deriving DecidableEq, Repr

/-- Outcome of the one upstream HTTP round-trip: a response with a status
code, its body text and (when the body parses) the fields claude.py reads,
or an httpx.TimeoutException. -/
inductive ClaudeWire where
  | response (status : Nat) (text : String) (data : Option ClaudeData)
  | timeout
deriving DecidableEq, Repr

/-- The distinguishable failures claude.py raises from chat. -/
inductive ClaudeError where
  | apiError (status : Nat) (bodyTrunc : String)
  | timeoutErr
  | parseError (msg : String)
deriving DecidableEq, Repr

/-- The exception message text claude.py attaches to each failure kind. -/
def claude_error_message : ClaudeError → String
  | .apiError status bodyTrunc =>
      "Claude API error " ++ toString status ++ ": " ++ bodyTrunc
  | .timeoutErr => "Claude API timeout after 300 seconds"
  | .parseError msg => msg

/-- claude.py lines 38-74: a timeout raises the timeout failure; a non-200
status raises the api-error failure carrying the status and the body cut
to 500 characters; a 200 response is read into the normalized result with
provider "claude" (an unreadable body re-raises as a parse failure). -/
def claude_chat (wire : ClaudeWire) : Except ClaudeError ChatResult :=
  match wire with
  | .timeout => .error .timeoutErr
  | .response status text data =>
    if status ≠ 200 then
      .error (.apiError status (pyTake text 500))
    else
      match data with
      | none => .error (.parseError "invalid response body")
      | some d =>
        match d.content_first_text with
        | none => .error (.parseError "KeyError")
        | some ct =>
          .ok { content := some ct
                model := d.model
                usage := ⟨d.input_tokens, d.output_tokens⟩
                provider := "claude" }

/-- C5: the Claude payload carries model, max_tokens under that name,
temperature and the message list unchanged; a (non-empty) system_prompt
goes to the top-level system field and never into messages. -/
theorem C5_claude_payload {α : Type} (model : String) (messages : List Msg)
    (system_prompt : Option String) (max_tokens : Nat) (temperature : α) :
    (claude_build_payload model messages system_prompt max_tokens
        temperature).model = model ∧
    (claude_build_payload model messages system_prompt max_tokens
        temperature).max_tokens = max_tokens ∧
    (claude_build_payload model messages system_prompt max_tokens
        temperature).temperature = temperature ∧
    (claude_build_payload model messages system_prompt max_tokens
        temperature).messages = messages ∧
    (∀ s, system_prompt = some s → s ≠ "" →
      (claude_build_payload model messages system_prompt max_tokens
          temperature).system = some s) := by
  refine ⟨rfl, rfl, rfl, rfl, ?_⟩
  intro s hs hne
  simp [claude_build_payload, hs, hne]

/-- C5 witness: the payload theorem evaluated at a concrete request with a
system prompt. -/
theorem C5_claude_payload_witness :
    (claude_build_payload "claude-sonnet-4-20250514"
        [⟨some "user", some "hi"⟩] (some "be brief") 4096 (7 : Nat)).system =
      some "be brief" ∧
    (claude_build_payload "claude-sonnet-4-20250514"
        [⟨some "user", some "hi"⟩] (some "be brief") 4096 (7 : Nat)).messages =
      [⟨some "user", some "hi"⟩] := by
  constructor
  · exact (C5_claude_payload "claude-sonnet-4-20250514"
      [⟨some "user", some "hi"⟩] (some "be brief") 4096 (7 : Nat)).2.2.2.2
      "be brief" rfl (by decide)
  · exact (C5_claude_payload "claude-sonnet-4-20250514"
      [⟨some "user", some "hi"⟩] (some "be brief") 4096 (7 : Nat)).2.2.2.1

/-- The truncation slice text[:500] never exceeds 500 characters. -/
theorem pyTake_length_le (s : String) (n : Nat) : (pyTake s n).length ≤ n :=
  List.length_take_le n s.data

/-- C6: a non-200 Claude reply becomes the api-error failure carrying the
status code and the body truncated to at most 500 characters, never a
success; a timeout is a distinct failure kind with a timeout message. -/
theorem C6_claude_errors (status : Nat) (text : String)
    (data : Option ClaudeData) :
    (status ≠ 200 →
      claude_chat (.response status text data) =
        .error (.apiError status (pyTake text 500)) ∧
      (pyTake text 500).length ≤ 500 ∧
      ∀ r, claude_chat (.response status text data) ≠ .ok r) ∧
    claude_chat .timeout = .error .timeoutErr ∧
    (∀ s b, (ClaudeError.timeoutErr = ClaudeError.apiError s b) → False) ∧
    claude_error_message .timeoutErr = "Claude API timeout after 300 seconds" := by
  refine ⟨?_, rfl, ?_, rfl⟩
  · intro h
    refine ⟨by simp [claude_chat, h], pyTake_length_le text 500, ?_⟩
    intro r
    simp [claude_chat, h]
  · intro s b h
    cases h

/-- C6 witness: the error theorem evaluated at a concrete 429 response. -/
theorem C6_claude_errors_witness :
    claude_chat (.response 429 "rate limited" none) =
      .error (.apiError 429 "rate limited") := by
  have h := (C6_claude_errors 429 "rate limited" none).1 (by decide)
  have e : pyTake "rate limited" 500 = "rate limited" := by decide
  rw [e] at h
  exact h.1

/-
  ChatGPT adapter, src/app/services/chatgpt.py.
-/

/-- The keyword arguments of client.chat.completions.create at
chatgpt.py lines 41-46. The token limit travels under the field name
max_completion_tokens; there is no max_tokens field in this request. -/
structure OpenAIRequest (α : Type) where
  model : String
  messages : List Msg
  temperature : α
  max_completion_tokens : Nat
deriving DecidableEq, Repr

/-- chatgpt.py lines 31-35: a truthy system_prompt is prepended as one
system-role message, then the input messages are extended unchanged. -/
def chatgpt_all_messages (system_prompt : Option String)
    (messages : List Msg) : List Msg :=
  (match system_prompt with
   | some s => if s = "" then [] else [⟨some "system", some s⟩]
   | none => []) ++ messages

/-- chatgpt.py lines 31-46: build the one upstream request. -/
def chatgpt_build_request {α : Type} (model : String) (messages : List Msg)
    (system_prompt : Option String) (max_tokens : Nat) (temperature : α) :
    OpenAIRequest α :=
  { model := model
    messages := chatgpt_all_messages system_prompt messages
    temperature := temperature
    max_completion_tokens := max_tokens }

/-- One element of response.choices with the message content the adapter
reads (content may be null). -/
structure OpenAIChoice where
  message_content : Option String
deriving DecidableEq, Repr

/-- response.usage with the OpenAI field names. -/
structure OpenAIUsage where
  prompt_tokens : Nat
  completion_tokens : Nat
deriving DecidableEq, Repr

/-- The fields of the SDK response object that chatgpt.py reads. -/
structure OpenAIResponse where
  choices : List OpenAIChoice
  model : String
  usage : OpenAIUsage
deriving DecidableEq, Repr

/-- chatgpt.py lines 48-59: read choices[0].message.content (an empty
choices list raises, re-raised by the blanket handler) and map
usage.prompt_tokens / usage.completion_tokens onto the normalized
input_tokens / output_tokens, with provider "openai". -/
def chatgpt_parse (r : OpenAIResponse) : Except String ChatResult :=
  match r.choices with
  | [] => .error "IndexError: list index out of range"
  | choice :: _ =>
    .ok { content := choice.message_content
          model := r.model
          usage := ⟨r.usage.prompt_tokens, r.usage.completion_tokens⟩
          provider := "openai" }

/-- C7: the ChatGPT request carries the token limit as
max_completion_tokens, prepends a present system_prompt as a leading
system-role message before the unchanged input messages, and the parsed
result maps usage.prompt_tokens / usage.completion_tokens onto
input_tokens / output_tokens. -/
theorem C7_chatgpt_shape {α : Type} (model : String) (messages : List Msg)
    (system_prompt : Option String) (max_tokens : Nat) (temperature : α)
    (r : OpenAIResponse) :
    (chatgpt_build_request model messages system_prompt max_tokens
        temperature).max_completion_tokens = max_tokens ∧
    (∀ s, system_prompt = some s → s ≠ "" →
      (chatgpt_build_request model messages system_prompt max_tokens
          temperature).messages = ⟨some "system", some s⟩ :: messages) ∧
    (system_prompt = none →
      (chatgpt_build_request model messages system_prompt max_tokens
          temperature).messages = messages) ∧
    (∀ choice rest, r.choices = choice :: rest →
      chatgpt_parse r =
        .ok { content := choice.message_content
              model := r.model
              usage := ⟨r.usage.prompt_tokens, r.usage.completion_tokens⟩
              provider := "openai" }) := by
  refine ⟨rfl, ?_, ?_, ?_⟩
  · intro s hs hne
    simp [chatgpt_build_request, chatgpt_all_messages, hs, hne]
  · intro hs
    simp [chatgpt_build_request, chatgpt_all_messages, hs]
  · intro choice rest hc
    simp [chatgpt_parse, hc]

/-- C7 witness: the shape theorem evaluated at a concrete request and a
concrete one-choice response. -/
theorem C7_chatgpt_shape_witness :
    (chatgpt_build_request "gpt-4o" [⟨some "user", some "hi"⟩]
        (some "be brief") 100 (7 : Nat)).messages =
      [⟨some "system", some "be brief"⟩, ⟨some "user", some "hi"⟩] ∧
    chatgpt_parse ⟨[⟨some "hello"⟩], "gpt-4o", ⟨3, 2⟩⟩ =
      .ok { content := some "hello", model := "gpt-4o", usage := ⟨3, 2⟩,
            provider := "openai" } := by
  constructor
  · exact (C7_chatgpt_shape "gpt-4o" [⟨some "user", some "hi"⟩]
      (some "be brief") 100 (7 : Nat)
      ⟨[⟨some "hello"⟩], "gpt-4o", ⟨3, 2⟩⟩).2.1 "be brief" rfl (by decide)
  · exact (C7_chatgpt_shape "gpt-4o" [⟨some "user", some "hi"⟩]
      (some "be brief") 100 (7 : Nat)
      ⟨[⟨some "hello"⟩], "gpt-4o", ⟨3, 2⟩⟩).2.2.2 ⟨some "hello"⟩ [] rfl

/-
  Perplexity adapter, src/app/services/perplexity.py.
-/

/-- choices[0]["message"] as perplexity.py reads it: the content value and
an optional citations list (`none` = key absent). -/
structure PerpMessage where
  content : Option String
  citations : Option (List String)
deriving DecidableEq, Repr

/-- One element of data["choices"]: its own optional citations and its
optional "message" dict (choice.get("message", \x7b\x7d) defaults to an
empty dict). -/
structure PerpChoice where
  citations : Option (List String)
  message : Option PerpMessage
deriving DecidableEq, Repr

/-- The message an absent "message" key defaults to: an empty dict. -/
def perpEmptyMessage : PerpMessage := ⟨none, none⟩

/-- response.usage; missing token fields are `none` and default to 0. -/
structure PerpUsage where
  prompt_tokens : Option Nat
  completion_tokens : Option Nat
deriving DecidableEq, Repr

/-- The parsed Perplexity response body. `choices = none` models an
absent "choices" key, for which the citation lookups substitute the
default list holding one empty dict while data["choices"] raises. -/
structure PerpData where
  citations : Option (List String)
  choices : Option (List PerpChoice)
  model : String
  usage : Option PerpUsage
deriving DecidableEq, Repr

/-- data.get("choices", [\x7b\x7d])[0]: the first choice, the empty-dict
default when the key is absent, and an IndexError on a present empty
list. -/
def perp_choice0 (d : PerpData) : Except String PerpChoice :=
  match d.choices with
  | none => .ok ⟨none, none⟩
  | some [] => .error "IndexError: list index out of range"
  | some (c :: _) => .ok c

/-- perplexity.py lines 54-63: take the top-level citations; if that list
is falsy take choices[0].citations; if still falsy take
choices[0].message.citations; absent keys default to the empty list. -/
def perp_citations (d : PerpData) : Except String (List String) := do
  let citations := d.citations.getD []
  let citations ←
    if citations = [] then do
      let c ← perp_choice0 d
      pure (c.citations.getD [])
    else pure citations
  let citations ←
    if citations = [] then do
      let c ← perp_choice0 d
      pure (((c.message.getD perpEmptyMessage).citations).getD [])
    else pure citations
  pure citations

/-- perplexity.py lines 67-76: the returned dict, with the content from
choices[0].message.content, usage token fields defaulting to 0, provider
"perplexity" and the citations from the three-location search. Indexing
data["choices"][0]["message"] or data["usage"] raises when absent. -/
def perplexity_chat (d : PerpData) : Except String ChatResult := do
  let citations ← perp_citations d
  match d.choices with
  | none => .error "KeyError: choices"
  | some [] => .error "IndexError: list index out of range"
  | some (c :: _) =>
    match c.message with
    | none => .error "KeyError: message"
    | some m =>
      match d.usage with
      | none => .error "KeyError: usage"
      | some u =>
        .ok { content := m.content
              model := d.model
              usage := ⟨u.prompt_tokens.getD 0, u.completion_tokens.getD 0⟩
              provider := "perplexity"
              citations := some citations }

/-- C8: with a non-empty choices list, the extracted citations are the
first non-empty list among top-level, first-choice and first-choice
message (empty when all three are empty), and the final result carries
exactly that list; in particular a nested message-level list wins when
the two outer locations are empty. -/
theorem C8_perplexity_citations (d : PerpData) (c : PerpChoice)
    (rest : List PerpChoice) (m : PerpMessage) (u : PerpUsage)
    (hc : d.choices = some (c :: rest)) (hm : c.message = some m)
    (hu : d.usage = some u) :
    (d.citations.getD [] ≠ [] →
      perp_citations d = .ok (d.citations.getD [])) ∧
    (d.citations.getD [] = [] → c.citations.getD [] ≠ [] →
      perp_citations d = .ok (c.citations.getD [])) ∧
    (d.citations.getD [] = [] → c.citations.getD [] = [] →
      perp_citations d = .ok (m.citations.getD [])) ∧
    (∀ l, d.citations = none → c.citations = none → m.citations = some l →
      perplexity_chat d =
        .ok { content := m.content
              model := d.model
              usage := ⟨u.prompt_tokens.getD 0, u.completion_tokens.getD 0⟩
              provider := "perplexity"
              citations := some l }) := by
  refine ⟨?_, ?_, ?_, ?_⟩
  · intro h1
    simp [perp_citations, h1, bind, Except.bind, pure, Except.pure]
  · intro h1 h2
    simp [perp_citations, perp_choice0, h1, hc, h2,
          bind, Except.bind, pure, Except.pure]
  · intro h1 h2
    simp [perp_citations, perp_choice0, h1, hc, h2, hm,
          bind, Except.bind, pure, Except.pure]
  · intro l h1 h2 h3
    simp [perplexity_chat, perp_citations, perp_choice0,
          h1, h2, h3, hc, hm, hu,
          bind, Except.bind, pure, Except.pure]

/-- C8 witness: the citation theorem evaluated on a concrete response with
citations only at choices[0].message.citations. -/
theorem C8_perplexity_citations_witness :
    perplexity_chat
        ⟨none,
         some [⟨none, some ⟨some "answer", some ["https://a", "https://b"]⟩⟩],
         "sonar", some ⟨some 3, some 2⟩⟩ =
      .ok { content := some "answer", model := "sonar", usage := ⟨3, 2⟩,
            provider := "perplexity",
            citations := some ["https://a", "https://b"] } := by
  exact (C8_perplexity_citations
    ⟨none,
     some [⟨none, some ⟨some "answer", some ["https://a", "https://b"]⟩⟩],
     "sonar", some ⟨some 3, some 2⟩⟩
    ⟨none, some ⟨some "answer", some ["https://a", "https://b"]⟩⟩ []
    ⟨some "answer", some ["https://a", "https://b"]⟩
    ⟨some 3, some 2⟩ rfl rfl rfl).2.2.2
    ["https://a", "https://b"] rfl rfl rfl

/-
  Gemini adapter, src/app/services/gemini.py.
-/

/-- One upstream turn (types.Content). The source always builds parts as
the one-element list [Part(text=...)] and merging appends to
parts[0].text, so the single part text is stored directly. -/
structure BuiltContent where
  role : String
  text : String
deriving DecidableEq, Repr

/-- gemini.py line 39: role mapping of one message. -/
def gemini_role (msgRole : Option String) : String :=
  if msgRole = some "assistant" then "model" else "user"

/-- gemini.py lines 38-52 for one message, over the reversed contents
list (the source appends at the end and merges with contents[-1]; here
the most recent turn is the head). An empty content is skipped; a
message whose mapped role equals the previous turn role is merged by
appending a blank line and the content to that turn text. -/
def gemini_step (rev : List BuiltContent) (msg : Msg) : List BuiltContent :=
  let role := gemini_role msg.role
  let content := msg.content.getD ""
  if content = "" then rev
  else
    match rev with
    | last :: rest =>
      if last.role = role then
        ⟨last.role, last.text ++ "\n\n" ++ content⟩ :: rest
      else ⟨role, content⟩ :: last :: rest
    | [] => [⟨role, content⟩]

/-- gemini.py lines 32-36: a truthy system_prompt becomes one leading
synthetic user turn annotated as a system instruction. -/
def gemini_system_contents (system_prompt : Option String) :
    List BuiltContent :=
  match system_prompt with
  | some s =>
      if s = "" then []
      else [⟨"user", "[System Instruction]\n" ++ s ++ "\n\n[User Message]"⟩]
  | none => []

/-- gemini.py lines 28-52: the full contents list sent upstream. -/
def gemini_build_contents (system_prompt : Option String)
    (messages : List Msg) : List BuiltContent :=
  (messages.foldl gemini_step
    (gemini_system_contents system_prompt).reverse).reverse

/-- A part of a response candidate content (part.text may be missing). -/
structure RespPart where
  text : Option String
deriving DecidableEq, Repr

/-- candidate.content; an absent or empty parts attribute is the empty
list (both are falsy in the source checks). -/
structure RespContent where
  parts : List RespPart
deriving DecidableEq, Repr

/-- One response candidate with its optional content and finish_reason. -/
structure Candidate where
  content : Option RespContent
  finish_reason : Option String
deriving DecidableEq, Repr

/-- The response object fields gemini.py reads. `text = none` models both
an absent aggregated accessor and one that raises (the source wraps the
access in try and falls through either way). -/
structure GeminiResponse where
  text : Option String
  candidates : List Candidate
  prompt_token_count : Option Nat
  candidates_token_count : Option Nat
deriving DecidableEq, Repr

/-- gemini.py lines 99-104, method 1: response.text when truthy. -/
def gemini_method1 (r : GeminiResponse) : Option String :=
  match r.text with
  | some t => if t = "" then none else some t
  | none => none

/-- gemini.py lines 107-124, method 2: the truthy texts of
candidates[0].content.parts joined with a newline, when candidates,
content and parts are all truthy and at least one part text is. -/
def gemini_method2 (r : GeminiResponse) : Option String :=
  match r.candidates with
  | [] => none
  | candidate :: _ =>
    match candidate.content with
    | none => none
    | some content =>
      if content.parts = [] then none
      else
        let parts_text := content.parts.filterMap fun part =>
          match part.text with
          | some t => if t = "" then none else some t
          | none => none
        if parts_text = [] then none
        else some (String.intercalate "\n" parts_text)

/-- gemini.py lines 138-144: the finish reason of the placeholder,
candidates[0].finish_reason when candidates exist and it is truthy,
otherwise UNKNOWN. -/
def gemini_fallback_finish (r : GeminiResponse) : String :=
  match r.candidates with
  | [] => "UNKNOWN"
  | c :: _ =>
    match c.finish_reason with
    | some fr => if fr = "" then "UNKNOWN" else fr
    | none => "UNKNOWN"

/-- gemini.py lines 96-144: content extraction, always producing a text:
method 1, else method 2, else the bracketed placeholder built from the
fallback finish reason. -/
def gemini_extract (r : GeminiResponse) : String :=
  match gemini_method1 r with
  | some t => t
  | none =>
    match gemini_method2 r with
    | some t => t
    | none => "[Empty response: " ++ gemini_fallback_finish r ++ "]"

/-- Python str(x) on the optional finish reason: str(None) is "None". -/
def pyStrOpt (o : Option String) : String :=
  match o with
  | some s => s
  | none => "None"

/-- gemini.py lines 153-155: the finish_reason field of the returned
dict (no truthiness check here, unlike the placeholder path). -/
def gemini_final_finish (r : GeminiResponse) : String :=
  match r.candidates with
  | [] => "UNKNOWN"
  | c :: _ => pyStrOpt c.finish_reason

/-- gemini.py lines 147-168: the returned normalized dict; extraction is
total, so this is a plain function, not a fallible one — an upstream 200
with no usable text still yields a success value. -/
def gemini_chat_result (model : String) (r : GeminiResponse) : ChatResult :=
  { content := some (gemini_extract r)
    model := model
    usage := ⟨r.prompt_token_count.getD 0, r.candidates_token_count.getD 0⟩
    provider := "gemini"
    finish_reason := some (gemini_final_finish r) }

/-- C3: extraction never fails — the aggregated accessor is tried first,
then the newline join of candidate parts, and when both yield nothing
the call still succeeds with the bracketed placeholder built from the
finish reason of candidates[0] (UNKNOWN when candidates are absent). -/
theorem C3_gemini_extraction (model : String) (r : GeminiResponse) :
    (∀ t, gemini_method1 r = some t → gemini_extract r = t) ∧
    (gemini_method1 r = none → ∀ t, gemini_method2 r = some t →
      gemini_extract r = t) ∧
    (gemini_method1 r = none → gemini_method2 r = none →
      gemini_extract r =
        "[Empty response: " ++ gemini_fallback_finish r ++ "]") ∧
    (r.candidates = [] → gemini_fallback_finish r = "UNKNOWN") ∧
    (gemini_chat_result model r).content = some (gemini_extract r) := by
  refine ⟨?_, ?_, ?_, ?_, rfl⟩
  · intro t h1
    simp [gemini_extract, h1]
  · intro h1 t h2
    simp [gemini_extract, h1, h2]
  · intro h1 h2
    simp [gemini_extract, h1, h2]
  · intro h
    simp [gemini_fallback_finish, h]

/-- C3 witness: the extraction theorem evaluated on a concrete response
whose accessor and candidates carry no usable text. -/
theorem C3_gemini_extraction_witness :
    gemini_extract ⟨none, [⟨none, some "SAFETY"⟩], some 3, some 0⟩ =
      "[Empty response: SAFETY]" ∧
    (gemini_chat_result "gemini-1.5-pro"
        ⟨none, [⟨none, some "SAFETY"⟩], some 3, some 0⟩).content =
      some (gemini_extract ⟨none, [⟨none, some "SAFETY"⟩], some 3, some 0⟩) := by
  constructor
  · have h := (C3_gemini_extraction "gemini-1.5-pro"
      ⟨none, [⟨none, some "SAFETY"⟩], some 3, some 0⟩).2.2.1 rfl rfl
    simpa [gemini_fallback_finish] using h
  · exact (C3_gemini_extraction "gemini-1.5-pro"
      ⟨none, [⟨none, some "SAFETY"⟩], some 3, some 0⟩).2.2.2.2

/-- C4: assistant maps to model and every other role to user, empty
contents are skipped, a message whose mapped role equals the previous
turn role is merged into it with a blank-line join in order, and two
consecutive assistant messages collapse to one model turn. -/
theorem C4_gemini_turns :
    gemini_role (some "assistant") = "model" ∧
    (∀ msgRole, msgRole ≠ some "assistant" → gemini_role msgRole = "user") ∧
    (∀ rev msg, msg.content.getD "" = "" → gemini_step rev msg = rev) ∧
    (∀ last rest msg, msg.content.getD "" ≠ "" →
      gemini_role msg.role = last.role →
      gemini_step (last :: rest) msg =
        ⟨last.role, last.text ++ "\n\n" ++ msg.content.getD ""⟩ :: rest) ∧
    (∀ c1 c2, c1 ≠ "" → c2 ≠ "" →
      gemini_build_contents none
          [⟨some "assistant", some c1⟩, ⟨some "assistant", some c2⟩] =
        [⟨"model", c1 ++ "\n\n" ++ c2⟩]) := by
  refine ⟨rfl, ?_, ?_, ?_, ?_⟩
  · intro msgRole h
    simp [gemini_role, h]
  · intro rev msg h
    simp [gemini_step, h]
  · intro last rest msg h hr
    simp [gemini_step, h, hr]
  · intro c1 c2 h1 h2
    simp [gemini_build_contents, gemini_system_contents, gemini_step,
          gemini_role, List.foldl, h1, h2]

/-- C4 witness: the turn theorem evaluated on two concrete consecutive
assistant messages. -/
theorem C4_gemini_turns_witness :
    gemini_build_contents none
        [⟨some "assistant", some "one"⟩, ⟨some "assistant", some "two"⟩] =
      [⟨"model", "one" ++ "\n\n" ++ "two"⟩] :=
  C4_gemini_turns.2.2.2.2 "one" "two" (by decide) (by decide)

/-
  Batch probe, src/app/routers/ai.py batch_chat (lines 150-194).
-/

/-- One entry of the results list batch_chat returns: the success dict
(provider, success, response excerpt, model, elapsed_ms) or the failure
dict (provider, success, error, elapsed_ms). -/
structure BatchOutcome where
  provider : String
  success : Bool
  response : Option String
  model : Option String
  error : Option String
  elapsed_ms : Nat
deriving DecidableEq, Repr

/-- The environment of one batch run: the configuration store, the
behaviour of each constructed service chat call (a normalized result or
a raised exception message str(e)), and the elapsed milliseconds the
timer measures for each provider id. -/
structure ProbeWorld where
  store : Store
  chatOutcome : Service → Except String ChatResult
  duration : String → Nat

/-- ai.py lines 156-188, test_provider: resolve and call the provider
inside a try block; an HTTPException from resolution becomes a failure
dict carrying its detail, any exception from the chat call becomes a
failure dict carrying its message, and a success records the content cut
to 500 characters and the model (a null content raises a TypeError in
the len call, caught by the same blanket handler). -/
def test_provider (w : ProbeWorld) (provider_id : String) : BatchOutcome :=
  match get_ai_service w.store provider_id with
  | .error e =>
    { provider := provider_id, success := false, response := none,
      model := none, error := some e.detail,
      elapsed_ms := w.duration provider_id }
  | .ok service =>
    match w.chatOutcome service with
    | .error msg =>
      { provider := provider_id, success := false, response := none,
        model := none, error := some msg,
        elapsed_ms := w.duration provider_id }
    | .ok result =>
      match result.content with
      | none =>
        { provider := provider_id, success := false, response := none,
          model := none,
          error := some "TypeError: object of type NoneType has no len()",
          elapsed_ms := w.duration provider_id }
      | some content =>
        { provider := provider_id, success := true,
          response := some (pyTake content 500),
          model := some result.model, error := none,
          elapsed_ms := w.duration provider_id }

/-- ai.py lines 190-194: every provider task is dispatched and
asyncio.gather collects the results aligned with the order of its task
list, which is the order of request.providers. -/
def batch_chat (w : ProbeWorld) (providers : List String) :
    List BatchOutcome :=
  providers.map (test_provider w)

/-- Every outcome is tagged with the provider id its task was given. -/
theorem test_provider_tag (w : ProbeWorld) (provider_id : String) :
    (test_provider w provider_id).provider = provider_id := by
  cases hg : get_ai_service w.store provider_id with
  | error e => simp [test_provider, hg]
  | ok service =>
    cases hc : w.chatOutcome service with
    | error msg => simp [test_provider, hg, hc]
    | ok result =>
      cases hr : result.content <;> simp [test_provider, hg, hc, hr]

/-- The service chat behaviour in the demo world: the gemini adapter
raises, every other adapter answers. -/
def demoChat : Service → Except String ChatResult := fun s =>
  if s.cls = .gemini then .error "Gemini API error: boom"
  else .ok ⟨some "hello there", s.model, ⟨3, 2⟩, "x", none, none⟩

/-- A concrete probe world over the demo store in which the claude call
takes 100 ms and every other call 5 ms. -/
def demoWorld : ProbeWorld :=
  ⟨demoStore, demoChat, fun provider_id =>
    if provider_id = "claude" then 100 else 5⟩

/-- C1: a batch over N provider ids yields exactly N outcomes, the i-th
outcome is the probe of the i-th id alone (so one provider never alters
or removes another outcome), every outcome is tagged with its requesting
id, and both a resolution failure and a raised chat exception become a
failed outcome instead of escaping. -/
theorem C1_batch_outcomes (w : ProbeWorld) (providers : List String) :
    (batch_chat w providers).length = providers.length ∧
    (∀ i : Nat, (batch_chat w providers)[i]? =
      (providers[i]?).map (test_provider w)) ∧
    (∀ provider_id,
      (test_provider w provider_id).provider = provider_id) ∧
    (∀ provider_id e, get_ai_service w.store provider_id = .error e →
      test_provider w provider_id =
        ⟨provider_id, false, none, none, some e.detail,
         w.duration provider_id⟩) ∧
    (∀ provider_id service msg,
      get_ai_service w.store provider_id = .ok service →
      w.chatOutcome service = .error msg →
      test_provider w provider_id =
        ⟨provider_id, false, none, none, some msg,
         w.duration provider_id⟩) := by
  refine ⟨List.length_map _ _, ?_, test_provider_tag w, ?_, ?_⟩
  · intro i
    simp [batch_chat]
  · intro provider_id e hg
    simp [test_provider, hg]
  · intro provider_id service msg hg hc
    simp [test_provider, hg, hc]

/-- C1 witness: the batch theorem evaluated on the demo world for an
unknown id and for an id whose adapter call raises. -/
theorem C1_batch_outcomes_witness :
    (batch_chat demoWorld ["claude", "nope", "gemini-pro"]).length = 3 ∧
    test_provider demoWorld "nope" =
      ⟨"nope", false, none, none, some "Provider not found: nope", 5⟩ ∧
    test_provider demoWorld "gemini-pro" =
      ⟨"gemini-pro", false, none, none, some "Gemini API error: boom", 5⟩ := by
  refine ⟨(C1_batch_outcomes demoWorld ["claude", "nope", "gemini-pro"]).1, ?_, ?_⟩
  · exact (C1_batch_outcomes demoWorld ["nope"]).2.2.2.1 "nope"
      ⟨404, "Provider not found: nope"⟩ rfl
  · exact (C1_batch_outcomes demoWorld ["gemini-pro"]).2.2.2.2 "gemini-pro"
      ⟨.gemini, "sk-g", "gemini-1.5-pro",
       "https://generativelanguage.googleapis.com/v1beta"⟩
      "Gemini API error: boom" rfl rfl

/-- C9 counterexample: in the demo world openai completes in 5 ms and
claude in 100 ms, yet the batch of [claude, openai] comes back in request
order claude-then-openai, not in completion order openai-then-claude —
asyncio.gather aligns results with its task list. -/
theorem C9_counterexample :
    (batch_chat demoWorld ["claude", "openai"]).map BatchOutcome.elapsed_ms =
      [100, 5] ∧
    (batch_chat demoWorld ["claude", "openai"]).map BatchOutcome.provider =
      ["claude", "openai"] ∧
    ¬ ((batch_chat demoWorld ["claude", "openai"]).map BatchOutcome.provider =
      ["openai", "claude"]) := by
  decide

/-- C9 (amended): the outcome sequence is aligned with the request order
of the input provider_ids, whatever the completion times are. -/
theorem C9_request_order (w : ProbeWorld) (providers : List String) :
    (batch_chat w providers).map BatchOutcome.provider = providers := by
  unfold batch_chat
  rw [List.map_map]
  have h : (BatchOutcome.provider ∘ test_provider w) = id := by
    funext provider_id
    exact test_provider_tag w provider_id
  rw [h, List.map_id]

/-- C10: the provider field of a result is a constant of the adapter
class — gemini results always say "gemini" and ChatGPT results always
say "openai" — while the registry resolves the distinct ids gemini-pro
and gemini-flash to the gemini adapter, so those requests return a
provider field differing from the requested id. -/
theorem C10_provider_constant :
    (∀ model r, (gemini_chat_result model r).provider = "gemini") ∧
    (∀ r res, chatgpt_parse r = .ok res → res.provider = "openai") ∧
    (∀ store p, store "gemini-pro" = some p → p.enabled = true →
      p.api_key ≠ "" →
      get_ai_service store "gemini-pro" =
        .ok ⟨.gemini, p.api_key, p.model, p.base_url⟩) ∧
    (∀ store p, store "gemini-flash" = some p → p.enabled = true →
      p.api_key ≠ "" →
      get_ai_service store "gemini-flash" =
        .ok ⟨.gemini, p.api_key, p.model, p.base_url⟩) ∧
    ("gemini" ≠ "gemini-pro" ∧ "gemini" ≠ "gemini-flash") := by
  refine ⟨fun model r => rfl, ?_, ?_, ?_, by decide, by decide⟩
  · intro r res h
    cases hc : r.choices with
    | nil => simp [chatgpt_parse, hc] at h
    | cons choice rest =>
      simp [chatgpt_parse, hc] at h
      rw [← h]
  · intro store p hp he hk
    simp [get_ai_service, service_map, hp, he, hk]
  · intro store p hp he hk
    simp [get_ai_service, service_map, hp, he, hk]

/-- C10 witness: the constant-provider theorem evaluated on the demo
store for gemini-pro and on a concrete gemini response. -/
theorem C10_provider_constant_witness :
    get_ai_service demoStore "gemini-pro" =
      .ok ⟨.gemini, "sk-g", "gemini-1.5-pro",
           "https://generativelanguage.googleapis.com/v1beta"⟩ ∧
    (gemini_chat_result "gemini-1.5-pro"
        ⟨some "hi", [], some 1, some 1⟩).provider = "gemini" := by
  constructor
  · exact C10_provider_constant.2.2.1 demoStore
      ⟨"Gemini (Pro)", "sk-g", "gemini-1.5-pro",
       "https://generativelanguage.googleapis.com/v1beta", true⟩
      (by decide) rfl (by decide)
  · exact C10_provider_constant.1 "gemini-1.5-pro"
      ⟨some "hi", [], some 1, some 1⟩

end AIGateway
